import Mathlib

/-!
# DigitalPhotoFrame: verification of the metadata/slideshow core

Shallow embedding of `src/main.py` (the only source file) and proofs of the
specification claims about it.

Modelling conventions:
* Python exceptions are modelled explicitly: a fallible step returns
  `Option`/`Except`, and the `try/except Exception: pass` handler of
  `extract_metadata` is an explicit catch that keeps the values the variables
  held at the raise point.
* Python `%` on integers with a positive modulus agrees with `Int.emod`;
  `x % 0` raises `ZeroDivisionError`, modelled by `pyMod` returning `none`.
* EXIF rationals are pairs of integers; `d[0]/d[1]` with a zero denominator
  raises `ZeroDivisionError`, modelled by `divQ` returning `none`; otherwise
  the value is the exact rational.
* Python string truthiness (`''` is falsy) is modelled where the source
  relies on it (`or`-chains, `filter(None, ...)`, `if lat and lon:`).
-/

namespace PhotoFrame

/-! ## Slideshow cursor operations (`show_next_image` / `show_prev_image`) -/

/-- Python `a % b` on integers: floor-mod for `b ≠ 0` (which `Int.emod` matches
for positive `b`), `ZeroDivisionError` for `b = 0` (modelled as `none`). -/
def pyMod (a : Int) (b : Int) : Option Int :=
  if b = 0 then none else some (a % b)

/-- Cursor update of `show_next_image`:
`self.current_index = (self.current_index + 1) % len(self.images)`. -/
def advanceForward (len : Nat) (cursor : Int) : Option Int :=
  pyMod (cursor + 1) (len : Int)

/-- Cursor update of `show_prev_image`:
`self.current_index = (self.current_index - 1) % len(self.images)`. -/
def advanceBackward (len : Nat) (cursor : Int) : Option Int :=
  pyMod (cursor - 1) (len : Int)

/-- `k`-fold iteration of the forward cursor update; a raise (`none`) at any
step propagates. -/
def iterForward (len : Nat) : Nat → Int → Option Int
  | 0, c => some c
  | k + 1, c => (advanceForward len c).bind (iterForward len k)

/-! ## GPS converter (`_convert` inside `extract_metadata`) -/

/-- An EXIF rational as stored in the GPS tags: a `(numerator, denominator)`
pair of integers. -/
structure ExifRat where
  num : Int
  den : Int
deriving DecidableEq, Repr

/-- Python float division `a/b` of two integers, modelled exactly over `ℚ`;
`b = 0` raises `ZeroDivisionError` (`none`). -/
def divQ (a b : Int) : Option ℚ :=
  if b = 0 then none else some ((a : ℚ) / (b : ℚ))

/-- Value of an EXIF rational, `none` when its denominator is zero. -/
def ratVal (r : ExifRat) : Option ℚ :=
  divQ r.num r.den

/-- A degrees/minutes/seconds triple as stored under GPS tags 2 and 4. -/
structure GpsTriple where
  d : ExifRat
  m : ExifRat
  s : ExifRat
deriving DecidableEq, Repr

/-- `_convert(coord, ref)`:
`dec = d[0]/d[1] + m[0]/m[1]/60 + s[0]/s[1]/3600;
return -dec if ref in ['S', 'W'] else dec`.
`none` models a `ZeroDivisionError` escaping `_convert`. -/
def convert (coord : GpsTriple) (ref : String) : Option ℚ := do
  let dq ← ratVal coord.d
  let mq ← ratVal coord.m
  let sq ← ratVal coord.s
  let dec := dq + mq / 60 + sq / 3600
  pure (if ref = "S" ∨ ref = "W" then -dec else dec)

/-! ## Metadata extractor (`extract_metadata`) -/

/-- Value of the `DateTimeOriginal` EXIF tag: either a string, or a value of
another type on which `.split(' ')` raises `AttributeError`. -/
inductive TagValue where
  | str (s : String)
  | nonStr
deriving DecidableEq, Repr

/-- The GPS tag group (`exif['GPSInfo']`), a dict keyed by small integers:
`1` = latitude reference, `2` = latitude d/m/s triple, `3` = longitude
reference, `4` = longitude d/m/s triple; each key independently optional. -/
structure GpsInfo where
  ref1 : Option String
  coord2 : Option GpsTriple
  ref3 : Option String
  coord4 : Option GpsTriple
deriving DecidableEq, Repr

/-- The tag dictionary produced by
`{ExifTags.TAGS.get(k, k): v for k, v in exif_data.items()}`, restricted to
the two tags the extractor reads. -/
structure ExifTags where
  dateTimeOriginal : Option TagValue
  gpsInfo : Option GpsInfo
deriving DecidableEq, Repr

/-- What opening a file yields: `openFail` when `Image.open`/`_getexif`
raises (unreadable file, unsupported format), otherwise the tag dictionary
(`_getexif() or {}` turns a `None` result into the empty dict, i.e. a tags
value with both fields absent). -/
inductive ExifOutcome where
  | openFail
  | exif (tags : ExifTags)
deriving DecidableEq, Repr

/-- The structured address inside a geocoder response (`loc.raw['address']`);
the four fields the code reads, each optional. -/
structure Address where
  city : Option String
  town : Option String
  village : Option String
  country : Option String
deriving DecidableEq, Repr

/-- Outcome of `geolocator.reverse(...)`: a raised exception (network error,
timeout), no usable result (`loc` falsy or `'address' not in loc.raw`), or a
structured address. -/
inductive GeoResult where
  | fail
  | noResult
  | ok (addr : Address)
deriving DecidableEq, Repr

/-- A geocoder as the extractor sees it: the outcome of a reverse lookup at
each coordinate. -/
def Geocoder : Type := ℚ → ℚ → GeoResult

/-- Python `s.split(' ')[0]`: the characters before the first space. -/
def beforeFirstSpace (s : String) : String :=
  ⟨s.data.takeWhile (fun c => c ≠ ' ')⟩

/-- Python `s.replace(':', '-')` for the single-character pattern used by the
source: every `':'` becomes `'-'`. -/
def replaceColonDash (s : String) : String :=
  ⟨s.data.map (fun c => if c = ':' then '-' else c)⟩

/-- The date transformation
`exif['DateTimeOriginal'].split(' ')[0].replace(':', '-')`. -/
def transformDate (s : String) : String :=
  replaceColonDash (beforeFirstSpace s)

/-- Python `a or b` for an optional string `a` and string `b`:
`a` unless it is falsy (`None` or `''`). -/
def pyStrOr (a : Option String) (b : String) : String :=
  match a with
  | some s => if s = "" then b else s
  | none => b

/-- `addr.get('city') or addr.get('town') or addr.get('village') or ''`. -/
def cityOf (addr : Address) : String :=
  pyStrOr addr.city (pyStrOr addr.town (pyStrOr addr.village ""))

/-- Python `sep.join(xs)`. -/
def joinAll (sep : String) : List String → String
  | [] => ""
  | [x] => x
  | x :: xs => x ++ sep ++ joinAll sep xs

/-- `', '.join(filter(None, [city, country]))`: drop falsy (empty) strings,
join the rest with `", "`. -/
def joinNonEmpty (sep : String) (xs : List String) : String :=
  joinAll sep (xs.filter (· ≠ ""))

/-- `location_str` derived from a successful address lookup:
`', '.join(filter(None, [city, country]))` with
`country = addr.get('country', '')`. -/
def placeOf (addr : Address) : String :=
  joinNonEmpty ", " [cityOf addr, addr.country.getD ""]

/-- Spec-side notion of a present string field: a non-empty string (the spec
treats an empty `place` as absent, matching Python falsiness of `''`). -/
def presentStr (x : Option String) : Option String :=
  match x with
  | some s => if s = "" then none else some s
  | none => none

/-- Spec-side locality: the first present field among city, town, village
(spec 4.3 step 4: "preferring city, then town, then village, falling back to
none"). -/
def localitySpec (addr : Address) : Option String :=
  (presentStr addr.city).orElse
    (fun _ => (presentStr addr.town).orElse (fun _ => presentStr addr.village))

/-- Spec-side country: the country field when present. -/
def countrySpec (addr : Address) : Option String :=
  presentStr addr.country

/-- `lat`/`lon` computation:
`_convert(gps[2], gps[1]) if 1 in gps and 2 in gps else None` (and the same
with keys 3/4). Outer `none` models a `ZeroDivisionError` escaping
`_convert` into the handler; `some none` is Python `None`. -/
def coordOf (ref : Option String) (coord : Option GpsTriple) :
    Option (Option ℚ) :=
  match ref, coord with
  | some r, some c =>
    match convert c r with
    | some q => some (some q)
    | none => none
  | _, _ => some none

/-- Python truthiness of `lat` (an optional float): falsy when `None` or
`0.0`. -/
def truthyCoord (x : Option ℚ) : Bool :=
  match x with
  | some q => q ≠ 0
  | none => false

/-- A `MetadataRecord` as the code builds it: the `(date_str, location_str)`
pair, with `''` meaning absent. -/
structure MetadataRecord where
  date : String
  place : String
deriving DecidableEq, Repr

/-- The GPS part of the `try` block, entered with `date_str` already set to
`date`: computes `lat`/`lon`, checks `if lat and lon:`, then geocodes and
derives `location_str`. The second component records whether
`geolocator.reverse` was invoked; a raise (`ZeroDivisionError` during
`_convert`, or an exception out of `geolocator.reverse`) falls through to
the `except Exception: pass` handler, which keeps the values the variables
held at that point. -/
def gpsPhase (geo : Geocoder) (date : String) (g : Option GpsInfo) :
    MetadataRecord × Bool :=
  match g with
  | none => (⟨date, ""⟩, false)
  | some gps =>
    match coordOf gps.ref1 gps.coord2 with
    | none => (⟨date, ""⟩, false)
    | some latO =>
      match coordOf gps.ref3 gps.coord4 with
      | none => (⟨date, ""⟩, false)
      | some lonO =>
        if truthyCoord latO ∧ truthyCoord lonO then
          match geo (latO.getD 0) (lonO.getD 0) with
          | .fail => (⟨date, ""⟩, true)
          | .noResult => (⟨date, ""⟩, true)
          | .ok addr => (⟨date, placeOf addr⟩, true)
        else (⟨date, ""⟩, false)

/-- The body of `extract_metadata` on a cache miss (the `try` block, its
`except Exception: pass` handler included), with the raise points of the
source made explicit; the second component records whether
`geolocator.reverse` was invoked. Every raise is caught by the handler, so
a record is produced on all paths. -/
def extractT (geo : Geocoder) (img : ExifOutcome) : MetadataRecord × Bool :=
  match img with
  | .openFail => (⟨"", ""⟩, false)
  | .exif tags =>
    match tags.dateTimeOriginal with
    | some .nonStr => (⟨"", ""⟩, false)
    | some (.str s) => gpsPhase geo (transformDate s) tags.gpsInfo
    | none => gpsPhase geo "" tags.gpsInfo

/-- The record `extract_metadata` computes for one image, ignoring the
cache. -/
def extractRecord (geo : Geocoder) (img : ExifOutcome) : MetadataRecord :=
  (extractT geo img).1

/-! ## Metadata cache (`cache` dict threaded through `extract_metadata`) -/

/-- The session cache: a finite map from image path to record. -/
def Cache : Type := List (String × MetadataRecord)

/-- `extract_metadata(image_path, geolocator, cache)` with the cache passed
explicitly: early return on a hit, otherwise compute, store, return. The
third component counts invocations of the underlying extraction work
(everything past the cache check). `imageOf` gives the file found at each
path. -/
def extract_metadata (geo : Geocoder) (imageOf : String → ExifOutcome)
    (path : String) (cache : Cache) : MetadataRecord × Cache × Nat :=
  match List.lookup path cache with
  | some r => (r, cache, 0)
  | none =>
    let r := extractRecord geo (imageOf path)
    (r, (path, r) :: cache, 1)

/-! ## Slideshow window timer (`SlideshowWindow.__init__`, `keyPressEvent`) -/

/-- The observable slideshow state: the cursor (`current_index`) and the
milliseconds left on the automatic `QTimer` until its next timeout. -/
structure SlideState where
  cursor : Int
  remainingMs : Nat
deriving DecidableEq, Repr

/-- Events that mutate the cursor: a timer timeout (connected to
`show_next_image`), a Right key press (`show_next_image`), a Left key press
(`show_prev_image`). -/
inductive SlideEvent where
  | timerFire
  | keyRight
  | keyLeft
deriving DecidableEq, Repr

/-- One event of the slideshow, for a non-empty image list of length `len`
with interval `intervalMs`. The timer is periodic: on a timeout it reloads
to the full interval. `keyPressEvent` calls `show_next_image` /
`show_prev_image` and never touches `self.timer`, so the remaining time is
unchanged there. `none` models the `ZeroDivisionError` of the cursor update
on an empty list. -/
def slideStep (len : Nat) (intervalMs : Nat) (s : SlideState)
    (e : SlideEvent) : Option SlideState :=
  match e with
  | .timerFire =>
    (advanceForward len s.cursor).map (fun c => ⟨c, intervalMs⟩)
  | .keyRight =>
    (advanceForward len s.cursor).map (fun c => ⟨c, s.remainingMs⟩)
  | .keyLeft =>
    (advanceBackward len s.cursor).map (fun c => ⟨c, s.remainingMs⟩)

/-! ## Helper lemmas -/

/-- For a positive length, iterating the forward update from an in-range
cursor `c` for `k` steps yields `(c + k) % len` and never raises. -/
theorem iterForward_eq (len : Nat) (hn : (len : Int) ≠ 0) :
    ∀ (k : Nat) (c : Int), 0 ≤ c → c < (len : Int) →
      iterForward len k c = some ((c + k) % (len : Int)) := by
  intro k
  induction k with
  | zero =>
    intro c h0 hlt
    simp [iterForward, Int.emod_eq_of_lt h0 hlt]
  | succ k ih =>
    intro c h0 hlt
    have hpos : (0 : Int) < (len : Int) := lt_of_le_of_lt h0 hlt
    have hstep : advanceForward len c = some ((c + 1) % (len : Int)) := by
      simp [advanceForward, pyMod, hn]
    rw [iterForward, hstep, Option.some_bind]
    rw [ih ((c + 1) % (len : Int)) (Int.emod_nonneg _ hn)
      (Int.emod_lt_of_pos _ hpos)]
    congr 1
    rw [Int.add_emod ((c + 1) % (len : Int)) (k : Int),
      Int.emod_emod_of_dvd _ dvd_rfl, ← Int.add_emod]
    push_cast
    ring_nf

/-- Python float truthiness of an optional coordinate, as a proposition:
truthy exactly when the value was obtained and is nonzero. -/
theorem truthyCoord_iff (x : Option ℚ) :
    truthyCoord x = true ↔ ∃ q, x = some q ∧ q ≠ 0 := by
  cases x <;> simp [truthyCoord]

/-- Python `a or b` equals the spec-side present-field fallback. -/
theorem pyStrOr_eq (a : Option String) (b : String) :
    pyStrOr a b = (presentStr a).getD b := by
  cases a with
  | none => rfl
  | some s => by_cases hs : s = "" <;> simp [pyStrOr, presentStr, hs]

/-- A present field is a non-empty string. -/
theorem presentStr_ne (x : Option String) (l : String)
    (h : presentStr x = some l) : l ≠ "" := by
  cases x with
  | none => simp [presentStr] at h
  | some s =>
    simp only [presentStr] at h
    by_cases hs : s = ""
    · rw [if_pos hs] at h
      exact absurd h (by simp)
    · rw [if_neg hs] at h
      obtain rfl : s = l := Option.some.inj h
      exact hs

/-- A present locality is a non-empty string. -/
theorem localitySpec_ne (addr : Address) (l : String)
    (h : localitySpec addr = some l) : l ≠ "" := by
  simp only [localitySpec, Option.orElse] at h
  cases h1 : presentStr addr.city with
  | some s => rw [h1] at h; simp at h; exact h ▸ presentStr_ne _ _ h1
  | none =>
    rw [h1] at h; simp at h
    cases h2 : presentStr addr.town with
    | some s => rw [h2] at h; simp at h; exact h ▸ presentStr_ne _ _ h2
    | none => rw [h2] at h; simp at h; exact presentStr_ne _ _ h

/-- The `city or town or village or ''` chain computes the spec-side
locality (with `''` for an absent one). -/
theorem cityOf_eq (addr : Address) :
    cityOf addr = (localitySpec addr).getD "" := by
  simp only [cityOf, localitySpec]
  rw [pyStrOr_eq, pyStrOr_eq, pyStrOr_eq]
  cases h1 : presentStr addr.city <;> cases h2 : presentStr addr.town <;>
    cases h3 : presentStr addr.village <;> simp [Option.orElse, h1, h2, h3]

/-- `addr.get('country', '')` computes the spec-side country (with `''` for
an absent one). -/
theorem countryOf_eq (addr : Address) :
    addr.country.getD "" = (countrySpec addr).getD "" := by
  cases h : addr.country with
  | none => simp [countrySpec, presentStr, h]
  | some s =>
    by_cases hs : s = "" <;> simp [countrySpec, presentStr, h, hs]

/-! ## Claims -/

/-- C2: for well-formed rational inputs (all denominators nonzero), the GPS
conversion returns `degrees + minutes/60 + seconds/3600`, negated exactly
when the hemisphere reference is `S` or `W`; in particular
`toDecimal(40,0,0,N) = 40`, `toDecimal(40,0,0,S) = -40`, and
`toDecimal(0,30,0,N) = 1/2`. -/
theorem convert_spec (d m s : ExifRat) (ref : String)
    (hd : d.den ≠ 0) (hm : m.den ≠ 0) (hs : s.den ≠ 0) :
    (convert ⟨d, m, s⟩ ref =
      some (if ref = "S" ∨ ref = "W" then
              -((d.num : ℚ) / d.den + (m.num : ℚ) / m.den / 60
                + (s.num : ℚ) / s.den / 3600)
            else
              (d.num : ℚ) / d.den + (m.num : ℚ) / m.den / 60
                + (s.num : ℚ) / s.den / 3600))
    ∧ convert ⟨⟨40, 1⟩, ⟨0, 1⟩, ⟨0, 1⟩⟩ "N" = some 40
    ∧ convert ⟨⟨40, 1⟩, ⟨0, 1⟩, ⟨0, 1⟩⟩ "S" = some (-40)
    ∧ convert ⟨⟨0, 1⟩, ⟨30, 1⟩, ⟨0, 1⟩⟩ "N" = some (1 / 2) := by
  refine ⟨?_, by simp [convert, ratVal, divQ], by simp [convert, ratVal, divQ],
    by simp [convert, ratVal, divQ]; norm_num⟩
  simp [convert, ratVal, divQ, hd, hm, hs]

/-- Witness for `convert_spec` at concrete well-formed inputs. -/
theorem convert_spec_witness :
    convert ⟨⟨40, 1⟩, ⟨0, 1⟩, ⟨0, 1⟩⟩ "S" = some (-40)
    ∧ convert ⟨⟨0, 1⟩, ⟨30, 1⟩, ⟨0, 1⟩⟩ "N" = some (1 / 2) :=
  ⟨(convert_spec ⟨40, 1⟩ ⟨0, 1⟩ ⟨0, 1⟩ "S"
      (by decide) (by decide) (by decide)).2.2.1,
   (convert_spec ⟨0, 1⟩ ⟨30, 1⟩ ⟨0, 1⟩ "N"
      (by decide) (by decide) (by decide)).2.2.2⟩

/-- C4: for a non-empty sequence of length `n` and a valid starting cursor,
`n` applications of the forward cursor update return the cursor to its
starting value. -/
theorem advanceForward_wraparound (n : Nat) (c : Int)
    (hn : 0 < n) (h0 : 0 ≤ c) (hc : c < (n : Int)) :
    iterForward n n c = some c := by
  have hn' : (n : Int) ≠ 0 := by exact_mod_cast hn.ne'
  rw [iterForward_eq n hn' n c h0 hc, Int.add_emod_self,
    Int.emod_eq_of_lt h0 hc]

/-- Witness for `advanceForward_wraparound`: length 4, cursor 1. -/
theorem advanceForward_wraparound_witness : iterForward 4 4 1 = some 1 :=
  advanceForward_wraparound 4 1 (by decide) (by decide) (by decide)

/-- C5: for a sequence of length at least 1 and a valid cursor, the forward
cursor update followed by the backward one is the identity. -/
theorem advance_forward_backward_id (n : Nat) (c : Int)
    (hn : 1 ≤ n) (h0 : 0 ≤ c) (hc : c < (n : Int)) :
    (advanceForward n c).bind (advanceBackward n) = some c := by
  have hn' : (n : Int) ≠ 0 := by
    have : 0 < n := hn
    exact_mod_cast this.ne'
  simp only [advanceForward, advanceBackward, pyMod, hn', if_false,
    Option.some_bind]
  rw [Int.sub_emod, Int.emod_emod_of_dvd _ dvd_rfl, ← Int.sub_emod,
    add_sub_cancel_right]
  exact congrArg some (Int.emod_eq_of_lt h0 hc)

/-- Witness for `advance_forward_backward_id`: length 3, cursor 2. -/
theorem advance_forward_backward_id_witness :
    (advanceForward 3 2).bind (advanceBackward 3) = some 2 :=
  advance_forward_backward_id 3 2 (by decide) (by decide) (by decide)

/-- C6 counterexample: on an empty sequence the cursor updates do not
complete with the cursor unchanged — `(cursor ± 1) % 0` raises
`ZeroDivisionError` (modelled as `none`), so neither update is a no-op. -/
theorem advance_empty_counterexample :
    advanceForward 0 0 ≠ some 0 ∧ advanceBackward 0 0 ≠ some 0
    ∧ advanceForward 0 0 = none ∧ advanceBackward 0 0 = none := by
  refine ⟨by decide, by decide, by decide, by decide⟩

/-- C6 amended: on an empty sequence, `show_next_image` and
`show_prev_image` raise `ZeroDivisionError` in the cursor update (modelled
as `none`) instead of completing as no-ops. -/
theorem advance_empty_raises (c : Int) :
    advanceForward 0 c = none ∧ advanceBackward 0 c = none := by
  refine ⟨by simp [advanceForward, pyMod], by simp [advanceBackward, pyMod]⟩

/-- C1: the extractor never propagates a failure: an unreadable file, a file
with no embedded tag block, a GPS block missing the longitude reference, and
a GPS block whose latitude conversion raises, all yield a (partially- or
fully-empty) record, for every geocoder behaviour. -/
theorem extract_never_raises (geo : Geocoder) :
    extractRecord geo .openFail = ⟨"", ""⟩
    ∧ extractRecord geo (.exif ⟨none, none⟩) = ⟨"", ""⟩
    ∧ (∀ s gps, gps.ref3 = none →
        extractRecord geo (.exif ⟨some (.str s), some gps⟩)
          = ⟨transformDate s, ""⟩)
    ∧ (∀ s gps, coordOf gps.ref1 gps.coord2 = none →
        extractRecord geo (.exif ⟨some (.str s), some gps⟩)
          = ⟨transformDate s, ""⟩) := by
  refine ⟨rfl, rfl, ?_, ?_⟩
  · intro s gps h3
    cases h1 : coordOf gps.ref1 gps.coord2 with
    | none => simp [extractRecord, extractT, gpsPhase, h1]
    | some latO =>
      have h4 : coordOf gps.ref3 gps.coord4 = some none := by
        rw [h3]; rfl
      simp [extractRecord, extractT, gpsPhase, h1, h4, truthyCoord]
  · intro s gps h1
    simp [extractRecord, extractT, gpsPhase, h1]

/-- Witness for `extract_never_raises`: a dated image whose GPS block lacks
the longitude tags still yields its date with an absent place. -/
theorem extract_never_raises_witness :
    extractRecord (fun _ _ => .noResult)
      (.exif ⟨some (.str "2021:06:01 10:00:00"),
        some ⟨some "N", some ⟨⟨40, 1⟩, ⟨0, 1⟩, ⟨0, 1⟩⟩, none, none⟩⟩)
      = ⟨"2021-06-01", ""⟩ := by
  have h := (extract_never_raises (fun _ _ => .noResult)).2.2.1
    "2021:06:01 10:00:00" ⟨some "N", some ⟨⟨40, 1⟩, ⟨0, 1⟩, ⟨0, 1⟩⟩, none, none⟩ rfl
  rw [h]
  decide

/-- C7 counterexample: a capture-date tag that is present but is not a
calendar date is returned (transformed) rather than treated as absent: the
extracted date field is the non-empty string `garbage!!`. -/
theorem malformed_date_counterexample :
    extractRecord (fun _ _ => .noResult)
      (.exif ⟨some (.str "garbage!!"), none⟩) = ⟨"garbage!!", ""⟩
    ∧ "garbage!!" ≠ "" := by
  exact ⟨by decide, by decide⟩

/-- C7 amended: the code does not parse the capture-date tag as a calendar
date: a string-valued tag is returned with only the text before the first
space kept and `:` replaced by `-`, however malformed; only a non-string tag
value (whose `.split` raises) yields an absent date, and that exception also
aborts the rest of extraction, leaving the place absent too. -/
theorem date_transform_verbatim (geo : Geocoder) (s : String) :
    extractRecord geo (.exif ⟨some (.str s), none⟩) = ⟨transformDate s, ""⟩
    ∧ (∀ g : Option GpsInfo,
        extractRecord geo (.exif ⟨some .nonStr, g⟩) = ⟨"", ""⟩) := by
  refine ⟨by simp [extractRecord, extractT, gpsPhase], ?_⟩
  intro g
  simp [extractRecord, extractT]

/-- C8 counterexample: with latitude 0 (the equator) and longitude 5 both
successfully obtained from the GPS tags, the geocoder is not invoked
(`if lat and lon:` treats the float `0.0` as falsy), even for a geocoder
that would return a full address. -/
theorem zero_coord_counterexample :
    coordOf (some "N") (some ⟨⟨0, 1⟩, ⟨0, 1⟩, ⟨0, 1⟩⟩) = some (some 0)
    ∧ coordOf (some "E") (some ⟨⟨5, 1⟩, ⟨0, 1⟩, ⟨0, 1⟩⟩) = some (some 5)
    ∧ (extractT (fun _ _ => .ok ⟨some "Paris", none, none, some "France"⟩)
        (.exif ⟨none, some ⟨some "N", some ⟨⟨0, 1⟩, ⟨0, 1⟩, ⟨0, 1⟩⟩,
          some "E", some ⟨⟨5, 1⟩, ⟨0, 1⟩, ⟨0, 1⟩⟩⟩⟩)).2 = false := by
  refine ⟨?_, ?_, ?_⟩
  · norm_num [coordOf, convert, ratVal, divQ]
  · norm_num [coordOf, convert, ratVal, divQ]
    decide
  · norm_num [extractT, gpsPhase, coordOf, convert, ratVal, divQ, truthyCoord]

/-- C8 amended: the extractor invokes the reverse-geocoding operation
exactly when both coordinates are obtained from the GPS tags and both are
nonzero; a coordinate equal to 0 suppresses the geocoder call. -/
theorem geocoder_invocation_iff (geo : Geocoder) (dt : Option String)
    (gps : GpsInfo) (latO lonO : Option ℚ)
    (hlat : coordOf gps.ref1 gps.coord2 = some latO)
    (hlon : coordOf gps.ref3 gps.coord4 = some lonO) :
    (extractT geo (.exif ⟨dt.map .str, some gps⟩)).2 = true
      ↔ ((∃ la, latO = some la ∧ la ≠ 0) ∧ (∃ lo, lonO = some lo ∧ lo ≠ 0)) := by
  have key : ∀ d : String, ((gpsPhase geo d (some gps)).2 = true
      ↔ (truthyCoord latO = true ∧ truthyCoord lonO = true)) := by
    intro d
    simp only [gpsPhase, hlat, hlon]
    by_cases h : truthyCoord latO = true ∧ truthyCoord lonO = true
    · rw [if_pos (by exact h)]
      cases hg : geo (latO.getD 0) (lonO.getD 0) <;> simp [h]
    · rw [if_neg (by exact h)]
      simp [h]
  cases dt with
  | none =>
    rw [show extractT geo (.exif ⟨Option.map TagValue.str none, some gps⟩)
        = gpsPhase geo "" (some gps) from rfl]
    rw [key "", truthyCoord_iff, truthyCoord_iff]
  | some s =>
    rw [show extractT geo (.exif ⟨Option.map TagValue.str (some s), some gps⟩)
        = gpsPhase geo (transformDate s) (some gps) from rfl]
    rw [key (transformDate s), truthyCoord_iff, truthyCoord_iff]

/-- Witness for `geocoder_invocation_iff`: with latitude 1 and longitude 5
obtained, the geocoder is invoked. -/
theorem geocoder_invocation_iff_witness :
    (extractT (fun _ _ => GeoResult.noResult)
      (.exif ⟨none, some ⟨some "N", some ⟨⟨1, 1⟩, ⟨0, 1⟩, ⟨0, 1⟩⟩,
        some "E", some ⟨⟨5, 1⟩, ⟨0, 1⟩, ⟨0, 1⟩⟩⟩⟩)).2 = true := by
  have h := geocoder_invocation_iff (fun _ _ => GeoResult.noResult) none
    ⟨some "N", some ⟨⟨1, 1⟩, ⟨0, 1⟩, ⟨0, 1⟩⟩, some "E", some ⟨⟨5, 1⟩, ⟨0, 1⟩, ⟨0, 1⟩⟩⟩
    (some 1) (some 5)
    (by norm_num [coordOf, convert, ratVal, divQ]; decide)
    (by norm_num [coordOf, convert, ratVal, divQ]; decide)
  exact h.mpr ⟨⟨1, rfl, one_ne_zero⟩, ⟨5, rfl, by norm_num⟩⟩

/-- C9: the place string of a successful geocoder response is the locality
(first present among city, town, village) joined with the country by
`", "`; one part alone when the other is absent, and empty when both are
absent. -/
theorem place_string_spec (addr : Address) :
    placeOf addr =
      match localitySpec addr, countrySpec addr with
      | some l, some c => l ++ ", " ++ c
      | some l, none => l
      | none, some c => c
      | none, none => "" := by
  simp only [placeOf, cityOf_eq addr, countryOf_eq addr]
  cases h1 : localitySpec addr with
  | none =>
    cases h2 : countrySpec addr with
    | none => simp [joinNonEmpty, joinAll]
    | some c =>
      have hcne := presentStr_ne _ _ h2
      simp [joinNonEmpty, joinAll, hcne]
  | some l =>
    have hlne := localitySpec_ne addr l h1
    cases h2 : countrySpec addr with
    | none => simp [joinNonEmpty, joinAll, hlne]
    | some c =>
      have hcne := presentStr_ne _ _ h2
      simp [joinNonEmpty, joinAll, hlne, hcne]

/-- C3: calling the cache-wrapped extraction twice for the same path
returns equal records, performs the underlying extraction work at most once
across the two calls, and a stored entry is never overwritten or
invalidated by a call. -/
theorem cache_write_once (geo : Geocoder) (imageOf : String → ExifOutcome)
    (path : String) (cache : Cache) :
    (extract_metadata geo imageOf path
        (extract_metadata geo imageOf path cache).2.1).1
      = (extract_metadata geo imageOf path cache).1
    ∧ (extract_metadata geo imageOf path cache).2.2
        + (extract_metadata geo imageOf path
            (extract_metadata geo imageOf path cache).2.1).2.2 ≤ 1
    ∧ (∀ p v, List.lookup p cache = some v →
        List.lookup p (extract_metadata geo imageOf path cache).2.1 = some v) := by
  cases h : List.lookup path cache with
  | some r =>
    refine ⟨?_, ?_, ?_⟩ <;> simp [extract_metadata, h]
  | none =>
    have hself : List.lookup path
        ((path, extractRecord geo (imageOf path)) :: cache)
        = some (extractRecord geo (imageOf path)) := by
      simp [List.lookup]
    refine ⟨?_, ?_, ?_⟩
    · simp [extract_metadata, h, hself]
    · simp [extract_metadata, h, hself]
    · intro p v hv
      have hne : (p == path) = false := by
        refine beq_eq_false_iff_ne.mpr ?_
        intro he
        rw [he, h] at hv
        exact Option.noConfusion hv
      simp [extract_metadata, h, List.lookup, hne, hv]

/-- Witness for `cache_write_once`: an entry stored for `a` survives a call
for the distinct path `b`. -/
theorem cache_write_once_witness :
    List.lookup "a" [("a", MetadataRecord.mk "d" "p")] = some ⟨"d", "p"⟩
    ∧ List.lookup "a"
        (extract_metadata (fun _ _ => GeoResult.noResult) (fun _ => .openFail)
          "b" [("a", MetadataRecord.mk "d" "p")]).2.1 = some ⟨"d", "p"⟩ :=
  ⟨by decide,
   (cache_write_once (fun _ _ => GeoResult.noResult) (fun _ => .openFail)
      "b" [("a", MetadataRecord.mk "d" "p")]).2.2 "a" ⟨"d", "p"⟩ (by decide)⟩

/-- C10 counterexample: a manual Next key press mutates the cursor
(0 becomes 1) but leaves the running timer at its 1 ms remainder instead of
resetting it to the full 5000 ms interval. -/
theorem manual_nav_timer_counterexample :
    slideStep 2 5000 ⟨0, 1⟩ .keyRight = some ⟨1, 1⟩
    ∧ (1 : Int) ≠ (0 : Int) ∧ (1 : Nat) ≠ 5000 := by
  refine ⟨?_, by decide, by decide⟩
  simp [slideStep, advanceForward, pyMod]

/-- C10 amended: the automatic timer is reloaded to the full interval only
by its own periodic timeout; manual Next/Previous navigation mutates the
cursor without resetting the timer, so a manually shown image can be
auto-advanced after less than a full interval. -/
theorem timer_reset_behavior (len intervalMs : Nat) (s : SlideState) :
    (∀ s', slideStep len intervalMs s .timerFire = some s'
      → s'.remainingMs = intervalMs)
    ∧ (∀ s', slideStep len intervalMs s .keyRight = some s'
      → s'.remainingMs = s.remainingMs)
    ∧ (∀ s', slideStep len intervalMs s .keyLeft = some s'
      → s'.remainingMs = s.remainingMs) := by
  refine ⟨?_, ?_, ?_⟩ <;> intro s' hs' <;>
    cases hadv : advanceForward len s.cursor <;>
    cases hadv2 : advanceBackward len s.cursor <;>
    simp [slideStep, hadv, hadv2] at hs' <;>
    simp [← hs']

/-- Witness for `timer_reset_behavior`: a manual Next from a state with
17 ms remaining leaves 17 ms remaining. -/
theorem timer_reset_behavior_witness :
    (slideStep 3 5000 ⟨0, 17⟩ .keyRight = some ⟨1, 17⟩)
    ∧ (17 : Nat) = 17 :=
  ⟨by simp [slideStep, advanceForward, pyMod],
   (timer_reset_behavior 3 5000 ⟨0, 17⟩).2.1 ⟨1, 17⟩
     (by simp [slideStep, advanceForward, pyMod])⟩

end PhotoFrame
